import Mathlib

/-!
Shallow embedding of `SolrClient/solrresp.py` (class `SolrResponse`).

The source receives an already-decoded JSON document (nested Python dicts,
lists, strings, ints, bools, None) and exposes accessor methods over it.
We model Python values with the inductive type `Json`.  Python dicts are
insertion-ordered, so an object is an association list in insertion order;
dict keys produced by the decoding routines can be any hashable scalar
(facet values may be ints), so keys have their own scalar type `JKey`.

Python exceptions are modelled with `Except PyError`.  Methods that mutate
instance attributes (the lazy memoization caches) take and return an
explicit `SolrResponse` state; a method that raises still returns the state
as mutated up to the raise, matching Python attribute assignment.
-/

inductive JKey where
  | kNull
  | kBool (b : Bool)
  | kInt (n : Int)
  | kStr (s : String)
deriving DecidableEq

inductive Json where
  | null
  | bool (b : Bool)
  | int (n : Int)
  | str (s : String)
  | arr (elems : List Json)
  | obj (entries : List (JKey × Json))

mutual

/-- Decidable equality for `Json`, written by hand because the automatic
derivation does not handle this nested inductive type. -/
def Json.decEq : (a b : Json) → Decidable (a = b)
  | .null, .null => isTrue rfl
  | .bool a, .bool b =>
      if h : a = b then isTrue (by rw [h]) else isFalse (fun hh => h (Json.bool.inj hh))
  | .int a, .int b =>
      if h : a = b then isTrue (by rw [h]) else isFalse (fun hh => h (Json.int.inj hh))
  | .str a, .str b =>
      if h : a = b then isTrue (by rw [h]) else isFalse (fun hh => h (Json.str.inj hh))
  | .arr xs, .arr ys =>
      match Json.decEqList xs ys with
      | isTrue h => isTrue (by rw [h])
      | isFalse h => isFalse (fun hh => h (Json.arr.inj hh))
  | .obj xs, .obj ys =>
      match Json.decEqEntries xs ys with
      | isTrue h => isTrue (by rw [h])
      | isFalse h => isFalse (fun hh => h (Json.obj.inj hh))
  | .null, .bool _ | .null, .int _ | .null, .str _ | .null, .arr _ | .null, .obj _
  | .bool _, .null | .bool _, .int _ | .bool _, .str _ | .bool _, .arr _ | .bool _, .obj _
  | .int _, .null | .int _, .bool _ | .int _, .str _ | .int _, .arr _ | .int _, .obj _
  | .str _, .null | .str _, .bool _ | .str _, .int _ | .str _, .arr _ | .str _, .obj _
  | .arr _, .null | .arr _, .bool _ | .arr _, .int _ | .arr _, .str _ | .arr _, .obj _
  | .obj _, .null | .obj _, .bool _ | .obj _, .int _ | .obj _, .str _ | .obj _, .arr _ =>
      isFalse (fun hh => nomatch hh)

/-- Decidable equality for lists of values. -/
def Json.decEqList : (xs ys : List Json) → Decidable (xs = ys)
  | [], [] => isTrue rfl
  | x :: xs, y :: ys =>
      match Json.decEq x y with
      | isFalse h => isFalse (fun hh => h (List.cons.inj hh).1)
      | isTrue h1 =>
          match Json.decEqList xs ys with
          | isTrue h2 => isTrue (by rw [h1, h2])
          | isFalse h2 => isFalse (fun hh => h2 (List.cons.inj hh).2)
  | [], _ :: _ => isFalse (fun hh => nomatch hh)
  | _ :: _, [] => isFalse (fun hh => nomatch hh)

/-- Decidable equality for the entries of a dict. -/
def Json.decEqEntries : (xs ys : List (JKey × Json)) → Decidable (xs = ys)
  | [], [] => isTrue rfl
  | (k, v) :: xs, (l, w) :: ys =>
      if hk : k = l then
        match Json.decEq v w with
        | isFalse h => isFalse (fun hh => h (congrArg Prod.snd (List.cons.inj hh).1))
        | isTrue h1 =>
            match Json.decEqEntries xs ys with
            | isTrue h2 => isTrue (by rw [hk, h1, h2])
            | isFalse h2 => isFalse (fun hh => h2 (List.cons.inj hh).2)
      else isFalse (fun hh => hk (congrArg Prod.fst (List.cons.inj hh).1))
  | [], _ :: _ => isFalse (fun hh => nomatch hh)
  | _ :: _, [] => isFalse (fun hh => nomatch hh)

end

instance : DecidableEq Json := Json.decEq

deriving instance DecidableEq for Except

/-- The Python exceptions the source can raise: KeyError from subscripting
a dict with a missing key, TypeError from ill-typed subscription or
concatenation, AttributeError from reading an attribute that was never
assigned, and the SolrResponseError the source raises explicitly. -/
inductive PyError where
  | keyError (k : String)
  | typeError
  | attributeError (a : String)
  | solrResponseError (msg : String)
deriving DecidableEq

def lookupK : List (JKey × Json) → JKey → Option Json
  | [], _ => none
  | (k', v) :: rest, k => if k' = k then some v else lookupK rest k

def dictSet : List (JKey × Json) → JKey → Json → List (JKey × Json)
  | [], k, v => [(k, v)]
  | (k', v') :: rest, k, v => if k' = k then (k, v) :: rest else (k', v') :: dictSet rest k v

/-- Membership test `k in d` for a Python dict (on any other value the callers
below never reach this test with a non-dict, except where noted). -/
def Json.hasKey : Json → String → Bool
  | .obj kvs, k => (lookupK kvs (.kStr k)).isSome
  | _, _ => false

/-- Subscription `j[k]` with a string key: KeyError on a dict without the key,
TypeError on lists, strings and scalars (string indices must be integers). -/
def getKey : Json → String → Except PyError Json
  | .obj kvs, k =>
      match lookupK kvs (.kStr k) with
      | some v => .ok v
      | none => .error (.keyError k)
  | _, _ => .error .typeError

/-- Guarded access used for `if k in d: d[k]` on a dict. -/
def objLookup : Json → String → Option Json
  | .obj kvs, k => lookupK kvs (.kStr k)
  | _, _ => none

/-- Write `d[k] = v` on a dict with a string key; identity on non-dicts
(callers only apply it to dicts). -/
def setKeyS : Json → String → Json → Json
  | .obj kvs, k, v => .obj (dictSet kvs (.kStr k) v)
  | j, _, _ => j

/-- Using a Python value as a dict key: hashable scalars are admitted, lists
and dicts raise TypeError (unhashable). -/
def toKey : Json → Except PyError JKey
  | .null => .ok .kNull
  | .bool b => .ok (.kBool b)
  | .int n => .ok (.kInt n)
  | .str s => .ok (.kStr s)
  | .arr _ => .error .typeError
  | .obj _ => .error .typeError

/-- A dict key read back as a value (dict iteration yields keys). -/
def keyToJson : JKey → Json
  | .kNull => .null
  | .kBool b => .bool b
  | .kInt n => .int n
  | .kStr s => .str s

/-- Python `str.isdigit` restricted to the ASCII strings we model: nonempty
and all characters decimal digits. -/
def pyIsDigit (s : String) : Bool :=
  !s.data.isEmpty && s.data.all Char.isDigit

/-- Python `int(s)` on a digit-only string: its decimal value (leading zeros
are lost). -/
def strToNat (s : String) : Nat :=
  s.data.foldl (fun acc c => acc * 10 + (c.toNat - 48)) 0

/-- Body of the ingestion normalization: a string field made solely of
decimal digits is replaced by the equivalent integer, everything else is
left unchanged (`if type(doc[field]) == str and doc[field].isdigit():
doc[field] = int(doc[field])`). -/
def normField : Json → Json
  | .str s => if pyIsDigit s then .int (Int.ofNat (strToNat s)) else .str s
  | v => v

/-- Fieldwise normalization of one document dict. -/
def normEntries (kvs : List (JKey × Json)) : List (JKey × Json) :=
  kvs.map (fun p => (p.1, normField p.2))

/-- One document of the working collection: `for field in doc: ...`.
A dict is normalized fieldwise.  A non-dict document raises TypeError when
iterated against itself (string indexing with a non-integer), except for
empty containers where the loop body never runs; the remaining degenerate
no-op shapes (for example a list of self-indexing integers) do not occur in
Solr responses and are mapped to TypeError as well. -/
def normDoc : Json → Except PyError Json
  | .obj kvs => .ok (.obj (normEntries kvs))
  | .arr [] => .ok (.arr [])
  | .str s => if s.data.isEmpty then .ok (.str s) else .error .typeError
  | _ => .error .typeError

/-- Normalization of a list of documents, left to right, failing at the
first offending document. -/
def normDocsList : List Json → Except PyError (List Json)
  | [] => .ok []
  | d :: rest =>
      match normDoc d with
      | .error e => .error e
      | .ok d2 =>
          match normDocsList rest with
          | .error e => .error e
          | .ok rest2 => .ok (d2 :: rest2)

/-- The post-extraction loop `for doc in self.docs`. `self.docs` is a list
in the response and grouped shapes and the fresh empty dict `{}` in the
empty shape (iterating a dict yields its keys; the empty dict loops zero
times, a nonempty one would index strings with strings, TypeError). -/
def normDocs : Json → Except PyError Json
  | .arr ds =>
      match normDocsList ds with
      | .error e => .error e
      | .ok ds2 => .ok (.arr ds2)
  | .obj kvs => if kvs.isEmpty then .ok (.obj kvs) else .error .typeError
  | .str s => if s.data.isEmpty then .ok (.str s) else .error .typeError
  | _ => .error .typeError

/-- The loop over `data['grouped']` in the constructor: for every field
record `field_ngroups` and `field_matches` in `self.groups`, and rebind
`self.docs` to the groups list of the field; the last field wins.  A
non-string field name would fail the string concatenation (TypeError).
Returns the metadata dict and the last `(field, field value, groups)`
seen. -/
def groupedScan :
    List (JKey × Json) → List (JKey × Json) → Option (String × Json × Json) →
    Except PyError (List (JKey × Json) × Option (String × Json × Json))
  | [], acc, last => .ok (acc, last)
  | (k, fv) :: rest, acc, _ =>
      match k with
      | .kStr f =>
          match getKey fv "ngroups" with
          | .error e => .error e
          | .ok ng =>
              match getKey fv "matches" with
              | .error e => .error e
              | .ok m =>
                  match getKey fv "groups" with
                  | .error e => .error e
                  | .ok gr =>
                      groupedScan rest
                        (dictSet (dictSet acc (.kStr (f ++ "_ngroups")) ng)
                          (.kStr (f ++ "_matches")) m)
                        (some (f, fv, gr))
      | _ => .error .typeError

/-- The state of a `SolrResponse` instance: the attributes assigned by the
constructor plus the three lazily-created memoization attributes, `none`
while the attribute does not exist yet (`hasattr` is false). -/
structure SolrResponse where
  data : Json
  query_time : Json
  header : Json
  grouped : Bool
  groups : List (JKey × Json)
  docs : Json
  num_found : Option Json
  facets : Option Json
  facet_ranges : Option Json
  facet_pivot : Option Json
deriving DecidableEq

/-- The constructor `SolrResponse.__init__(data)`.  The digit normalization
mutates the document dicts in place, and those dicts are shared with
`self.data` (in the response shape they sit at `data['response']['docs']`,
in the grouped shape at `data['grouped'][lastfield]['groups']`), so the
stored `data` reflects the normalization; the empty-shape `{}` is a fresh
dict, leaving `data` untouched.  `num_found` is only assigned when the
response shape carries `numFound`; `docs` is never assigned when `grouped`
has no fields, so the normalization loop raises AttributeError. -/
def SolrResponse.init (data : Json) : Except PyError SolrResponse :=
  match getKey data "responseHeader" with
  | .error e => .error e
  | .ok header =>
      match getKey header "QTime" with
      | .error e => .error e
      | .ok qt =>
          if data.hasKey "response" then
            match getKey data "response" with
            | .error e => .error e
            | .ok resp =>
                match getKey resp "docs" with
                | .error e => .error e
                | .ok docs0 =>
                    match normDocs docs0 with
                    | .error e => .error e
                    | .ok docs =>
                        .ok { data := setKeyS data "response" (setKeyS resp "docs" docs),
                              query_time := qt, header := header, grouped := false,
                              groups := [], docs := docs,
                              num_found := objLookup resp "numFound",
                              facets := none, facet_ranges := none, facet_pivot := none }
          else if data.hasKey "grouped" then
            match getKey data "grouped" with
            | .error e => .error e
            | .ok g =>
                match g with
                | .obj fields =>
                    match groupedScan fields [] none with
                    | .error e => .error e
                    | .ok (_, none) => .error (.attributeError "docs")
                    | .ok (groups, some (f, fv, gr)) =>
                        match normDocs gr with
                        | .error e => .error e
                        | .ok docs =>
                            .ok { data := setKeyS data "grouped"
                                    (setKeyS g f (setKeyS fv "groups" docs)),
                                  query_time := qt, header := header, grouped := true,
                                  groups := groups, docs := docs, num_found := none,
                                  facets := none, facet_ranges := none, facet_pivot := none }
                | .arr ds =>
                    if ds.isEmpty then .error (.attributeError "docs")
                    else .error .typeError
                | .str s =>
                    if s.data.isEmpty then .error (.attributeError "docs")
                    else .error .typeError
                | _ => .error .typeError
          else
            .ok { data := data, query_time := qt, header := header, grouped := false,
                  groups := [], docs := .obj [], num_found := none,
                  facets := none, facet_ranges := none, facet_pivot := none }

/-- Accessor `get_num_found`: returns `self.num_found`, raising
AttributeError when the attribute was never assigned (grouped or empty
shape, or a response without `numFound`).  This AttributeError is the
MissingField failure of the specification. -/
def SolrResponse.get_num_found (s : SolrResponse) : Except PyError Json :=
  match s.num_found with
  | some v => .ok v
  | none => .error (.attributeError "num_found")

/-- Accessor `get_json`: `json.dumps(self.data)`.  We state round-trip
properties about `Decode(GetJson())`, and on the string-keyed trees stored
in `self.data` the composition of `json.dumps` with a JSON decode is the
structural identity, so the composition is modelled as `self.data`
itself. -/
def SolrResponse.get_json (s : SolrResponse) : Json :=
  s.data

/-- Iteration `for x in j`: a list yields its elements, a dict its keys, a
string its one-character substrings; scalars are not iterable
(TypeError). -/
def pyIter : Json → Except PyError (List Json)
  | .arr xs => .ok xs
  | .obj kvs => .ok (kvs.map (fun p => keyToJson p.1))
  | .str s => .ok (s.data.map (fun c => .str (String.mk [c])))
  | _ => .error .typeError

/-- The sequences admitted by the slicings `l[::2]` and `l[1::2]`: lists
and strings slice (a string into one-character substrings); dicts and
scalars raise TypeError. -/
def pySeq : Json → Except PyError (List Json)
  | .arr xs => .ok xs
  | .str s => .ok (s.data.map (fun c => .str (String.mk [c])))
  | _ => .error .typeError

/-- Slice `l[::2]`: every element at an even index. -/
def evens : List Json → List Json
  | [] => []
  | [x] => [x]
  | x :: _ :: rest => x :: evens rest

/-- Slice `l[1::2]`: every element at an odd index. -/
def odds : List Json → List Json
  | [] => []
  | [_] => []
  | _ :: y :: rest => y :: odds rest

/-- Python `zip`: pairs up to the shorter argument. -/
def zipPairs : List Json → List Json → List (Json × Json)
  | x :: xs, y :: ys => (x, y) :: zipPairs xs ys
  | _, _ => []

/-- Keying the pairs of a dict construction: every key must be hashable. -/
def keyPairs : List (Json × Json) → Except PyError (List (JKey × Json))
  | [] => .ok []
  | (k, v) :: rest =>
      match toKey k with
      | .error e => .error e
      | .ok kk =>
          match keyPairs rest with
          | .error e => .error e
          | .ok rest2 => .ok ((kk, v) :: rest2)

/-- Building a dict from a pair sequence in order: standard mapping
insertion semantics, the last pair with a given key wins and a repeated key
keeps its first position (`dict` and `OrderedDict` alike). -/
def insFold : List (JKey × Json) → List (JKey × Json) → List (JKey × Json)
  | [], acc => acc
  | (k, v) :: rest, acc => insFold rest (dictSet acc k v)

/-- The decoding `OrderedDict(zip(l[::2], l[1::2]))` (and the identical
`dict(...)` of the range accessor) applied to one flat alternating list. -/
def odZip (l : List Json) : Except PyError (List (JKey × Json)) :=
  match keyPairs (zipPairs (evens l) (odds l)) with
  | .error e => .error e
  | .ok ps => .ok (insFold ps [])

/-- Loop body of `get_facets` over the fields of `facet_fields`; the guard
`if type(... == list)` in the source compares a boolean to `list` and is
always truthy, so every field is decoded.  On a raise the partially built
`self.facets` survives. -/
def facetsLoop :
    List (JKey × Json) → List (JKey × Json) →
    Except PyError Unit × List (JKey × Json)
  | [], acc => (.ok (), acc)
  | (fk, fv) :: rest, acc =>
      match pySeq fv with
      | .error e => (.error e, acc)
      | .ok l =>
          match odZip l with
          | .error e => (.error e, acc)
          | .ok d => facetsLoop rest (dictSet acc fk (.obj d))

/-- Accessor `get_facets`.  First call: `self.facets = OrderedDict()`, then
the outer guard requires `facet_counts` present and dict-typed, else
SolrResponseError; the inner guard requires `facet_fields` present and
dict-typed, else the empty `self.facets` is returned; otherwise each field
is decoded from its flat alternating list.  Later calls return the cached
attribute. -/
def SolrResponse.get_facets (s : SolrResponse) : Except PyError Json × SolrResponse :=
  match s.facets with
  | some f => (.ok f, s)
  | none =>
      match s.data with
      | .obj kvs =>
          match lookupK kvs (.kStr "facet_counts") with
          | some (.obj fc) =>
              match lookupK fc (.kStr "facet_fields") with
              | some (.obj ff) =>
                  match facetsLoop ff [] with
                  | (.ok _, acc) => (.ok (.obj acc), { s with facets := some (.obj acc) })
                  | (.error e, acc) => (.error e, { s with facets := some (.obj acc) })
              | _ => (.ok (.obj []), { s with facets := some (.obj []) })
          | _ =>
              (.error (.solrResponseError "No Facet Information in the Response"),
                { s with facets := some (.obj []) })
      | _ => (.error (.attributeError "keys"), { s with facets := some (.obj []) })

/-- Loop body of `get_facets_ranges` over the fields of `facet_ranges`:
reads the `counts` sub-list of every field (KeyError if absent) and decodes
it when it is exactly a list, silently skipping the field otherwise. -/
def rangesLoop :
    List (JKey × Json) → List (JKey × Json) →
    Except PyError Unit × List (JKey × Json)
  | [], acc => (.ok (), acc)
  | (fk, fv) :: rest, acc =>
      match getKey fv "counts" with
      | .error e => (.error e, acc)
      | .ok counts =>
          match counts with
          | .arr l =>
              match odZip l with
              | .error e => (.error e, acc)
              | .ok d => rangesLoop rest (dictSet acc fk (.obj d))
          | _ => rangesLoop rest acc

/-- Accessor `get_facets_ranges`.  First call: `self.facet_ranges = {}`;
the outer guard requires `facet_counts` present and dict-typed, else
SolrResponseError; when `facet_ranges` is present and dict-typed the loop
decodes it and its `return` fires, but when that inner guard fails control
falls off the end of the method and Python returns None.  Later calls
return the cached attribute. -/
def SolrResponse.get_facets_ranges (s : SolrResponse) :
    Except PyError Json × SolrResponse :=
  match s.facet_ranges with
  | some f => (.ok f, s)
  | none =>
      match s.data with
      | .obj kvs =>
          match lookupK kvs (.kStr "facet_counts") with
          | some (.obj fc) =>
              match lookupK fc (.kStr "facet_ranges") with
              | some (.obj fr) =>
                  match rangesLoop fr [] with
                  | (.ok _, acc) =>
                      (.ok (.obj acc), { s with facet_ranges := some (.obj acc) })
                  | (.error e, acc) =>
                      (.error e, { s with facet_ranges := some (.obj acc) })
              | _ => (.ok .null, { s with facet_ranges := some (.obj []) })
          | _ =>
              (.error (.solrResponseError "No Facet Ranges in the Response"),
                { s with facet_ranges := some (.obj []) })
      | _ => (.error (.attributeError "keys"), { s with facet_ranges := some (.obj []) })

mutual

/-- Structural size of a value, used to budget the recursion depth of the
pivot decoder. -/
def jsonSize : Json → Nat
  | .arr xs => jsonSizeList xs + 1
  | .obj kvs => jsonSizeEntries kvs + 1
  | _ => 1

/-- Structural size of a list of values. -/
def jsonSizeList : List Json → Nat
  | [] => 0
  | x :: xs => jsonSize x + jsonSizeList xs + 1

/-- Structural size of the entries of a dict. -/
def jsonSizeEntries : List (JKey × Json) → Nat
  | [] => 0
  | (_, v) :: xs => jsonSize v + jsonSizeEntries xs + 1

end

mutual

/-- The recursive decoder `_rec_subfield`, with an explicit depth budget
(every recursive call of the source descends into a strict subvalue, so
the budget `jsonSize j + 1` supplied by the wrapper `rec_subfield` is
never exhausted; the budget case is unreachable).  On a dict carrying
`pivot` the decoder binds the recursively decoded sub-list under the
`value` key (the assignment evaluates its right side first); on a dict
without `pivot`, and on any non-list non-dict value, the empty dict built
at entry is returned, dropping the entry. -/
def recSubF : Nat → Json → Except PyError (List (JKey × Json))
  | 0, _ => .error .typeError
  | fuel + 1, j =>
      match j with
      | .arr entries => recListF fuel entries []
      | .obj kvs =>
          match lookupK kvs (.kStr "pivot") with
          | some p =>
              match recSubF fuel p with
              | .error e => .error e
              | .ok r =>
                  match getKey (.obj kvs) "value" with
                  | .error e => .error e
                  | .ok v =>
                      match toKey v with
                      | .error e => .error e
                      | .ok k => .ok [(k, .obj r)]
          | none => .ok []
      | _ => .ok []

/-- The loop of the list branch of `_rec_subfield`: an entry that is not a
dict fails looking up `.keys()` (AttributeError); an entry carrying a
`pivot` key first decodes that sub-list and then raises TypeError, because
the source subscripts the enclosing list, not the entry, with the string
`value`; an entry without `pivot` binds its `count` under its `value`. -/
def recListF : Nat → List Json → List (JKey × Json) → Except PyError (List (JKey × Json))
  | 0, _, _ => .error .typeError
  | _ + 1, [], acc => .ok acc
  | fuel + 1, e :: rest, acc =>
      match e with
      | .obj kvs =>
          match lookupK kvs (.kStr "pivot") with
          | some p =>
              match recSubF fuel p with
              | .error e2 => .error e2
              | .ok _ => .error .typeError
          | none =>
              match getKey (.obj kvs) "count" with
              | .error e2 => .error e2
              | .ok c =>
                  match getKey (.obj kvs) "value" with
                  | .error e2 => .error e2
                  | .ok v =>
                      match toKey v with
                      | .error e2 => .error e2
                      | .ok k => recListF fuel rest (dictSet acc k c)
      | _ => .error (.attributeError "keys")

end

/-- Entry point of the recursive pivot decoder `_rec_subfield`. -/
def rec_subfield (j : Json) : Except PyError (List (JKey × Json)) :=
  recSubF (jsonSize j + 1) j

/-- Inner loop of `get_facet_pivot` over `pivots[fieldset]`: every entry is
decoded with `_rec_subfield` and merged into the dict for the field set
with `dict.update` (in-place, so the partial dict survives a raise). -/
def subLoop : List Json → List (JKey × Json) →
    Except PyError Unit × List (JKey × Json)
  | [], cur => (.ok (), cur)
  | sub :: rest, cur =>
      match rec_subfield sub with
      | .error e => (.error e, cur)
      | .ok res => subLoop rest (insFold res cur)

/-- Outer loop of `get_facet_pivot` over the field sets of `facet_pivot`:
`self.facet_pivot[fieldset] = {}` first, then the entries are decoded and
merged; on a raise the partially built `self.facet_pivot` survives. -/
def pivotLoop : List (JKey × Json) → List (JKey × Json) →
    Except PyError Unit × List (JKey × Json)
  | [], acc => (.ok (), acc)
  | (fsk, fsv) :: rest, acc =>
      let acc1 := dictSet acc fsk (.obj [])
      match pyIter fsv with
      | .error e => (.error e, acc1)
      | .ok subs =>
          match subLoop subs [] with
          | (.error e, cur) => (.error e, dictSet acc1 fsk (.obj cur))
          | (.ok _, cur) => pivotLoop rest (dictSet acc1 fsk (.obj cur))

/-- Accessor `get_facet_pivot`.  First call: `self.facet_pivot = {}`; the
guard only tests that `facet_counts` is present (no type check), then reads
`facet_counts['facet_pivot']` (KeyError when absent, TypeError when
`facet_counts` is not a dict) and decodes every field set; when the guard
fails control falls off the end and Python returns None.  Later calls
return the cached attribute. -/
def SolrResponse.get_facet_pivot (s : SolrResponse) :
    Except PyError Json × SolrResponse :=
  match s.facet_pivot with
  | some f => (.ok f, s)
  | none =>
      match s.data with
      | .obj kvs =>
          match lookupK kvs (.kStr "facet_counts") with
          | some fc =>
              match getKey fc "facet_pivot" with
              | .error e => (.error e, { s with facet_pivot := some (.obj []) })
              | .ok pivots =>
                  match pivots with
                  | .obj pkvs =>
                      match pivotLoop pkvs [] with
                      | (.ok _, acc) =>
                          (.ok (.obj acc), { s with facet_pivot := some (.obj acc) })
                      | (.error e, acc) =>
                          (.error e, { s with facet_pivot := some (.obj acc) })
                  | _ => (.error .typeError, { s with facet_pivot := some (.obj []) })
          | none => (.ok .null, { s with facet_pivot := some (.obj []) })
      | _ => (.error (.attributeError "keys"), { s with facet_pivot := some (.obj []) })

/-- Accessor `get_facet_values_as_list(field)`: reads `self.get_facets()`
(propagating its failure and cache effect), then returns the counts of
`facets[field]` in that mapping's iteration order, raising
SolrResponseError when `field` is absent from the facet mapping. -/
def SolrResponse.get_facet_values_as_list (s : SolrResponse) (field : String) :
    Except PyError Json × SolrResponse :=
  match s.get_facets with
  | (.error e, s2) => (.error e, s2)
  | (.ok facets, s2) =>
      match facets with
      | .obj fkvs =>
          match lookupK fkvs (.kStr field) with
          | some fv =>
              match fv with
              | .obj kvs => (.ok (.arr (kvs.map (fun p => p.2))), s2)
              | _ => (.error .typeError, s2)
          | none => (.error (.solrResponseError "No field in facet output"), s2)
      | _ => (.error (.attributeError "keys"), s2)

/-- Accessor `get_facet_keys_as_list(field)`: reads `self.get_facets()`
(propagating its failure and cache effect); the `facets == -1` guard can
only fire if the memoized attribute holds the integer -1; then, when
`field` is present in the facet mapping its keys are returned in order,
and when it is absent control falls off the end and Python returns None
instead of raising. -/
def SolrResponse.get_facet_keys_as_list (s : SolrResponse) (field : String) :
    Except PyError Json × SolrResponse :=
  match s.get_facets with
  | (.error e, s2) => (.error e, s2)
  | (.ok facets, s2) =>
      match facets with
      | .obj fkvs =>
          match lookupK fkvs (.kStr field) with
          | some (.obj kvs) => (.ok (.arr (kvs.map (fun p => keyToJson p.1))), s2)
          | some _ => (.error (.attributeError "keys"), s2)
          | none => (.ok .null, s2)
      | .int n =>
          if n = -1 then (.ok (.int n), s2)
          else (.error (.attributeError "keys"), s2)
      | _ => (.error (.attributeError "keys"), s2)

/-- Specification-side reading of the flat alternating facet list: the
element at each even index is a key and the immediately following
odd-index element is its value, pairs taken in source order. -/
def specPairs : List Json → List (Json × Json)
  | k :: v :: rest => (k, v) :: specPairs rest
  | _ => []

/-- Specification-side first-insertion key order of a pair sequence: the
distinct keys in order of first occurrence (`seen` carries the keys
already emitted). -/
def keysInOrder : List (JKey × Json) → List JKey → List JKey
  | [], _ => []
  | (k, _) :: rest, seen =>
      if k ∈ seen then keysInOrder rest seen
      else k :: keysInOrder rest (k :: seen)

/-- The metadata keys the grouped-shape constructor generates, two per
grouped field, in order. -/
def metaKeys : List (JKey × Json) → List JKey
  | [] => []
  | (.kStr f, _) :: rest =>
      .kStr (f ++ "_ngroups") :: .kStr (f ++ "_matches") :: metaKeys rest
  | _ :: rest => metaKeys rest

/-- The guard `k in d.keys() and type(d[k]) == dict` of the facet
accessors, on the entries of a dict. -/
def hasObjKey (kvs : List (JKey × Json)) (k : String) : Bool :=
  match lookupK kvs (.kStr k) with
  | some (.obj _) => true
  | _ => false

/-- A minimal response header entry shared by the concrete inputs below. -/
def hdrEntry : JKey × Json :=
  (.kStr "responseHeader", .obj [(.kStr "QTime", .int 0)])

/-- A wrapper state over a document `d`, as the constructor produces for
the empty shape (no `response` and no `grouped` key). -/
def emptyShapeState (d : Json) : SolrResponse :=
  { data := d, query_time := .int 0, header := .obj [(.kStr "QTime", .int 0)],
    grouped := false, groups := [], docs := .obj [], num_found := none,
    facets := none, facet_ranges := none, facet_pivot := none }

/-- The pivot input of claim C1: entry A with a two-leaf sub-pivot,
entry B a bare leaf. -/
def c1Data : Json :=
  .obj [hdrEntry,
    (.kStr "facet_counts", .obj [(.kStr "facet_pivot", .obj [(.kStr "f1,f2", .arr [
      .obj [(.kStr "value", .str "A"), (.kStr "count", .int 2),
            (.kStr "pivot", .arr [
              .obj [(.kStr "value", .str "X"), (.kStr "count", .int 1)],
              .obj [(.kStr "value", .str "Y"), (.kStr "count", .int 1)]])],
      .obj [(.kStr "value", .str "B"), (.kStr "count", .int 1)]])])])]

/-- A response-shape input with one document holding a digit-only string
field. -/
def c3Data : Json :=
  .obj [hdrEntry,
    (.kStr "response", .obj [
      (.kStr "docs", .arr [.obj [(.kStr "price", .str "100")]]),
      (.kStr "numFound", .int 1)])]

/-- What the constructor stores for `c3Data`: the shared document dict was
normalized in place, so `price` is now the integer 100. -/
def c3DataStored : Json :=
  .obj [hdrEntry,
    (.kStr "response", .obj [
      (.kStr "docs", .arr [.obj [(.kStr "price", .int 100)]]),
      (.kStr "numFound", .int 1)])]

/-- A response-shape input whose documents are unchanged by the digit
normalization. -/
def c3CleanData : Json :=
  .obj [hdrEntry,
    (.kStr "response", .obj [
      (.kStr "docs", .arr [.obj [(.kStr "name", .str "abc")]]),
      (.kStr "numFound", .int 1)])]

/-- An input whose `facet_counts` is present and dict-typed but holds no
`facet_ranges` (and no other section). -/
def c4Data : Json :=
  .obj [hdrEntry, (.kStr "facet_counts", .obj [])]

/-- An input with only a response header: empty shape, no `facet_counts`
at all. -/
def c5Data : Json :=
  .obj [hdrEntry]

/-- An input with one facet field, one facet range and one pivot section,
all well-formed, for exercising the memoized accessors. -/
def c5RichData : Json :=
  .obj [hdrEntry,
    (.kStr "facet_counts", .obj [
      (.kStr "facet_fields", .obj [(.kStr "color", .arr [.str "red", .int 3])]),
      (.kStr "facet_ranges", .obj [(.kStr "price",
        .obj [(.kStr "counts", .arr [.int 0, .int 3, .int 10, .int 5])])]),
      (.kStr "facet_pivot", .obj [(.kStr "f1", .arr [
        .obj [(.kStr "value", .str "v"), (.kStr "count", .int 7)]])])])]

/-- The ungrouped input of claim C6: one document with a digit-only
string, a non-digit string and a leading-zero digit string. -/
def c6Data : Json :=
  .obj [hdrEntry,
    (.kStr "response", .obj [
      (.kStr "docs", .arr [.obj [
        (.kStr "price", .str "100"),
        (.kStr "name", .str "abc"),
        (.kStr "code", .str "007")]]),
      (.kStr "numFound", .int 1)])]

/-- The normalized working collection the constructor stores for
`c6Data`. -/
def c6Docs : Json :=
  .arr [.obj [
    (.kStr "price", .int 100),
    (.kStr "name", .str "abc"),
    (.kStr "code", .int 7)]]

/-- The facet-field input of claim C7: flat list with a repeated key. -/
def c7Data : Json :=
  .obj [hdrEntry,
    (.kStr "facet_counts", .obj [(.kStr "facet_fields", .obj [
      (.kStr "color", .arr [.str "red", .int 3, .str "blue", .int 5, .str "red", .int 1])])])]

/-- The facet-field input of claim C8: a single facet field `color`. -/
def c8Data : Json :=
  .obj [hdrEntry,
    (.kStr "facet_counts", .obj [(.kStr "facet_fields", .obj [
      (.kStr "color", .arr [.str "red", .int 3])])])]

/-- The grouped input of claim C9: two grouped fields, each with
`ngroups`, `matches` and a `groups` list; the `b` group list is nonempty
so the two fields are distinguishable. -/
def c9Data : Json :=
  .obj [hdrEntry,
    (.kStr "grouped", .obj [
      (.kStr "a", .obj [(.kStr "ngroups", .int 2), (.kStr "matches", .int 5),
                        (.kStr "groups", .arr [])]),
      (.kStr "b", .obj [(.kStr "ngroups", .int 3), (.kStr "matches", .int 9),
                        (.kStr "groups", .arr [.obj [(.kStr "g", .str "x")]])])])]

/-- The grouped fields of `c9Data`, as a bare entry list. -/
def c9Fields : List (JKey × Json) :=
  [(.kStr "a", .obj [(.kStr "ngroups", .int 2), (.kStr "matches", .int 5),
                     (.kStr "groups", .arr [])]),
   (.kStr "b", .obj [(.kStr "ngroups", .int 3), (.kStr "matches", .int 9),
                     (.kStr "groups", .arr [.obj [(.kStr "g", .str "x")]])])]

/-- The state the constructor produces for `c9Data`. -/
def c9State : SolrResponse :=
  { data := c9Data, query_time := .int 0, header := .obj [(.kStr "QTime", .int 0)],
    grouped := true,
    groups := [(.kStr "a_ngroups", .int 2), (.kStr "a_matches", .int 5),
               (.kStr "b_ngroups", .int 3), (.kStr "b_matches", .int 9)],
    docs := .arr [.obj [(.kStr "g", .str "x")]], num_found := none,
    facets := none, facet_ranges := none, facet_pivot := none }

/-- The grouped-but-empty input of claim C10. -/
def c10Data : Json :=
  .obj [hdrEntry, (.kStr "grouped", .obj [])]

/-- The `response` sub-object of `c3CleanData`. -/
def c3CleanResp : Json :=
  .obj [(.kStr "docs", .arr [.obj [(.kStr "name", .str "abc")]]), (.kStr "numFound", .int 1)]

/-- The state the constructor produces for `c3CleanData` (the
normalization changes nothing, so the stored data is the input itself). -/
def c3CleanState : SolrResponse :=
  { data := c3CleanData, query_time := .int 0, header := .obj [(.kStr "QTime", .int 0)],
    grouped := false, groups := [], docs := .arr [.obj [(.kStr "name", .str "abc")]],
    num_found := some (.int 1), facets := none, facet_ranges := none, facet_pivot := none }

/-- The `response` sub-object of `c6Data`, as found in the input. -/
def c6Resp : Json :=
  .obj [(.kStr "docs", .arr [.obj [
      (.kStr "price", .str "100"), (.kStr "name", .str "abc"), (.kStr "code", .str "007")]]),
    (.kStr "numFound", .int 1)]

/-- The stored data for `c6Data`: the document dict was normalized in
place. -/
def c6DataStored : Json :=
  .obj [hdrEntry, (.kStr "response", .obj [(.kStr "docs", c6Docs), (.kStr "numFound", .int 1)])]

/-- The state the constructor produces for `c6Data`. -/
def c6State : SolrResponse :=
  { data := c6DataStored, query_time := .int 0, header := .obj [(.kStr "QTime", .int 0)],
    grouped := false, groups := [], docs := c6Docs, num_found := some (.int 1),
    facets := none, facet_ranges := none, facet_pivot := none }

/-- The decoded facet-field mapping of `c5RichData`. -/
def c5FacetsVal : Json :=
  .obj [(.kStr "color", .obj [(.kStr "red", .int 3)])]

/-- The decoded facet-range mapping of `c5RichData`. -/
def c5RangesVal : Json :=
  .obj [(.kStr "price", .obj [(.kInt 0, .int 3), (.kInt 10, .int 5)])]

/-- The decoded facet-pivot mapping of `c5RichData` (the bare leaf entry
is dropped by the decoder, leaving the empty mapping for `f1`). -/
def c5PivotVal : Json :=
  .obj [(.kStr "f1", .obj [])]

/-- The state after a first `get_facets` call on a fresh wrapper over
`c5RichData`. -/
def c5S1 : SolrResponse :=
  { emptyShapeState c5RichData with facets := some c5FacetsVal }

/-- The state after a first `get_facets_ranges` call on a fresh wrapper
over `c5RichData`. -/
def c5S2 : SolrResponse :=
  { emptyShapeState c5RichData with facet_ranges := some c5RangesVal }

/-- The state after a first `get_facet_pivot` call on a fresh wrapper over
`c5RichData`. -/
def c5S3 : SolrResponse :=
  { emptyShapeState c5RichData with facet_pivot := some c5PivotVal }

/-- The decoded facet-field mapping of `c8Data`. -/
def c8FacetsVal : Json :=
  .obj [(.kStr "color", .obj [(.kStr "red", .int 3)])]

/-- The entries of `c8FacetsVal`. -/
def c8Fkvs : List (JKey × Json) :=
  [(.kStr "color", .obj [(.kStr "red", .int 3)])]

/-- The state after a first `get_facets` call on a fresh wrapper over
`c8Data`. -/
def c8S1 : SolrResponse :=
  { emptyShapeState c8Data with facets := some c8FacetsVal }

/-- The value of the grouped field `a` in `c9Data`. -/
def c9FvA : Json :=
  .obj [(.kStr "ngroups", .int 2), (.kStr "matches", .int 5), (.kStr "groups", .arr [])]

/-- The value of the grouped field `b` in `c9Data`. -/
def c9FvB : Json :=
  .obj [(.kStr "ngroups", .int 3), (.kStr "matches", .int 9),
    (.kStr "groups", .arr [.obj [(.kStr "g", .str "x")]])]

/-! ## Dictionary lemmas -/

theorem lookupK_dictSet (acc : List (JKey × Json)) (k0 k : JKey) (v0 : Json) :
    lookupK (dictSet acc k0 v0) k = if k0 = k then some v0 else lookupK acc k := by
  induction acc with
  | nil => simp [dictSet, lookupK]
  | cons p rest ih =>
      obtain ⟨k1, v1⟩ := p
      by_cases h1 : k1 = k0
      · subst h1
        by_cases h2 : k1 = k
        · subst h2
          simp [dictSet, lookupK]
        · simp [dictSet, lookupK, h2]
      · simp only [dictSet, if_neg h1]
        by_cases h2 : k1 = k
        · subst h2
          have hne : ¬(k0 = k1) := fun hh => h1 hh.symm
          simp [lookupK, hne]
        · simp [lookupK, h2, ih]

theorem dictSet_self (kvs : List (JKey × Json)) (k : JKey) (v : Json)
    (h : lookupK kvs k = some v) : dictSet kvs k v = kvs := by
  induction kvs with
  | nil => simp [lookupK] at h
  | cons p rest ih =>
      obtain ⟨k1, v1⟩ := p
      by_cases h1 : k1 = k
      · subst h1
        have h3 : v1 = v := by simpa [lookupK] using h
        simp [dictSet, h3]
      · simp only [lookupK, if_neg h1] at h
        simp [dictSet, h1, ih h]

theorem lookupK_append (xs ys : List (JKey × Json)) (k : JKey) :
    lookupK (xs ++ ys) k =
      match lookupK xs k with
      | some v => some v
      | none => lookupK ys k := by
  induction xs with
  | nil => simp [lookupK]
  | cons p rest ih =>
      obtain ⟨k1, v1⟩ := p
      by_cases h1 : k1 = k
      · simp [lookupK, h1]
      · simp [lookupK, h1, ih]

theorem insFold_lookup :
    ∀ (ps acc : List (JKey × Json)) (k : JKey),
      lookupK (insFold ps acc) k =
        match lookupK ps.reverse k with
        | some v => some v
        | none => lookupK acc k
  | [], acc, k => by simp [insFold, lookupK]
  | (k0, v0) :: rest, acc, k => by
      simp only [insFold]
      rw [insFold_lookup rest (dictSet acc k0 v0) k]
      rw [List.reverse_cons, lookupK_append, lookupK_dictSet]
      rcases hr : lookupK rest.reverse k with _ | w
      · by_cases hk : k0 = k
        · simp [lookupK, hk]
        · simp [lookupK, hk]
      · rfl

theorem insFold_lookup_nil (ps : List (JKey × Json)) (k : JKey) :
    lookupK (insFold ps []) k = lookupK ps.reverse k := by
  rw [insFold_lookup]
  rcases h : lookupK ps.reverse k with _ | w
  · simp [lookupK]
  · rfl

theorem dictSet_keys (acc : List (JKey × Json)) (k : JKey) (v : Json) :
    (dictSet acc k v).map Prod.fst =
      if k ∈ acc.map Prod.fst then acc.map Prod.fst
      else acc.map Prod.fst ++ [k] := by
  induction acc with
  | nil => simp [dictSet]
  | cons p rest ih =>
      obtain ⟨k1, v1⟩ := p
      by_cases h1 : k1 = k
      · subst h1
        simp [dictSet]
      · have hne : ¬(k = k1) := fun hh => h1 hh.symm
        simp only [dictSet, if_neg h1, List.map_cons, List.mem_cons]
        rw [ih]
        by_cases h2 : k ∈ rest.map Prod.fst
        · simp [h2, hne]
        · simp [h2, hne]

theorem keysInOrder_congr :
    ∀ (ps : List (JKey × Json)) (s1 s2 : List JKey),
      (∀ x, x ∈ s1 ↔ x ∈ s2) → keysInOrder ps s1 = keysInOrder ps s2
  | [], _, _, _ => rfl
  | (k, _) :: rest, s1, s2, h => by
      simp only [keysInOrder]
      by_cases hk : k ∈ s1
      · rw [if_pos hk, if_pos ((h k).mp hk), keysInOrder_congr rest s1 s2 h]
      · rw [if_neg hk, if_neg (fun hh => hk ((h k).mpr hh))]
        rw [keysInOrder_congr rest (k :: s1) (k :: s2) (fun x => by simp [h x])]

theorem insFold_keys :
    ∀ (ps acc : List (JKey × Json)),
      (insFold ps acc).map Prod.fst =
        acc.map Prod.fst ++ keysInOrder ps (acc.map Prod.fst)
  | [], acc => by simp [insFold, keysInOrder]
  | (k, v) :: rest, acc => by
      simp only [insFold, keysInOrder]
      rw [insFold_keys rest (dictSet acc k v), dictSet_keys]
      by_cases hk : k ∈ acc.map Prod.fst
      · rw [if_pos hk, if_pos hk]
      · rw [if_neg hk, if_neg hk]
        rw [keysInOrder_congr rest (acc.map Prod.fst ++ [k]) (k :: acc.map Prod.fst)
          (fun x => by simp [or_comm])]
        simp

theorem zip_evens_odds : ∀ l : List Json, zipPairs (evens l) (odds l) = specPairs l
  | [] => rfl
  | [_] => rfl
  | x :: y :: rest => by
      simp only [evens, odds, zipPairs, specPairs]
      rw [zip_evens_odds rest]

theorem lookupK_normEntries :
    ∀ (kvs : List (JKey × Json)) (k : JKey),
      lookupK (normEntries kvs) k = (lookupK kvs k).map normField
  | [], k => by simp [normEntries, lookupK]
  | (k1, v1) :: rest, k => by
      by_cases h1 : k1 = k
      · simp [normEntries, lookupK, h1]
      · simp only [normEntries, List.map_cons, lookupK, if_neg h1]
        exact lookupK_normEntries rest k

/-! ## Access lemmas -/

theorem lookupK_of_getKey {j : Json} {k : String} {v : Json}
    (h : getKey j k = .ok v) :
    ∃ kvs, j = .obj kvs ∧ lookupK kvs (.kStr k) = some v := by
  cases j with
  | obj kvs =>
      simp only [getKey] at h
      rcases hl : lookupK kvs (.kStr k) with _ | w
      · rw [hl] at h
        exact Except.noConfusion h
      · rw [hl] at h
        injection h with h2
        exact ⟨kvs, rfl, h2 ▸ hl⟩
  | null => exact Except.noConfusion h
  | bool b => exact Except.noConfusion h
  | int n => exact Except.noConfusion h
  | str s5 => exact Except.noConfusion h
  | arr xs => exact Except.noConfusion h

theorem getKey_of_lookupK {kvs : List (JKey × Json)} {k : String} {v : Json}
    (hl : lookupK kvs (.kStr k) = some v) : getKey (.obj kvs) k = .ok v := by
  simp [getKey, hl]

theorem hasKey_of_getKey {j : Json} {k : String} {v : Json}
    (h : getKey j k = .ok v) : j.hasKey k = true := by
  obtain ⟨kvs, rfl, hl⟩ := lookupK_of_getKey h
  simp [Json.hasKey, hl]

theorem objLookup_of_getKey {j : Json} {k : String} {v : Json}
    (h : getKey j k = .ok v) : objLookup j k = some v := by
  obtain ⟨kvs, rfl, hl⟩ := lookupK_of_getKey h
  simp [objLookup, hl]

/-! ## Constructor shape lemmas -/

theorem init_ok_response (data : Json) (s : SolrResponse)
    (h : SolrResponse.init data = .ok s) (hr : data.hasKey "response" = true) :
    ∃ resp docs0,
      getKey data "response" = .ok resp ∧ getKey resp "docs" = .ok docs0 ∧
      normDocs docs0 = .ok s.docs ∧ s.num_found = objLookup resp "numFound" ∧
      s.data = setKeyS data "response" (setKeyS resp "docs" s.docs) ∧
      s.grouped = false ∧ s.groups = [] ∧
      s.facets = none ∧ s.facet_ranges = none ∧ s.facet_pivot = none := by
  unfold SolrResponse.init at h
  cases hh1 : getKey data "responseHeader" with
  | error e => simp only [hh1] at h; exact Except.noConfusion h
  | ok hdr =>
  simp only [hh1] at h
  cases hh2 : getKey hdr "QTime" with
  | error e => simp only [hh2] at h; exact Except.noConfusion h
  | ok qt =>
  simp only [hh2, hr, eq_self_iff_true, if_true] at h
  cases hh3 : getKey data "response" with
  | error e => simp only [hh3] at h; exact Except.noConfusion h
  | ok resp =>
  simp only [hh3] at h
  cases hh4 : getKey resp "docs" with
  | error e => simp only [hh4] at h; exact Except.noConfusion h
  | ok docs0 =>
  simp only [hh4] at h
  cases hh5 : normDocs docs0 with
  | error e => simp only [hh5] at h; exact Except.noConfusion h
  | ok docs =>
  simp only [hh5] at h
  injection h with h2
  subst h2
  exact ⟨resp, docs0, rfl, hh4, hh5, rfl, rfl, rfl, rfl, rfl, rfl, rfl⟩

theorem init_ok_no_response (data : Json) (s : SolrResponse)
    (h : SolrResponse.init data = .ok s) (hr : data.hasKey "response" = false) :
    s.num_found = none ∧ s.facets = none ∧ s.facet_ranges = none ∧ s.facet_pivot = none ∧
    (data.hasKey "grouped" = false → s.data = data ∧ s.docs = .obj []) := by
  unfold SolrResponse.init at h
  cases hh1 : getKey data "responseHeader" with
  | error e => simp only [hh1] at h; exact Except.noConfusion h
  | ok hdr =>
  simp only [hh1] at h
  cases hh2 : getKey hdr "QTime" with
  | error e => simp only [hh2] at h; exact Except.noConfusion h
  | ok qt =>
  simp only [hh2, hr, Bool.false_eq_true, if_false] at h
  cases hg : data.hasKey "grouped" with
  | false =>
      simp only [hg, Bool.false_eq_true, if_false] at h
      injection h with h2
      subst h2
      exact ⟨rfl, rfl, rfl, rfl, fun _ => ⟨rfl, rfl⟩⟩
  | true =>
      simp only [hg, eq_self_iff_true, if_true] at h
      cases hgg : getKey data "grouped" with
      | error e => simp only [hgg] at h; exact Except.noConfusion h
      | ok g =>
      simp only [hgg] at h
      cases g with
      | null => exact Except.noConfusion h
      | bool b => exact Except.noConfusion h
      | int n => exact Except.noConfusion h
      | str str5 =>
          cases hse : str5.data.isEmpty with
          | false => simp only [hse, Bool.false_eq_true, if_false] at h; exact Except.noConfusion h
          | true => simp only [hse, eq_self_iff_true, if_true] at h; exact Except.noConfusion h
      | arr ds =>
          cases hde : ds.isEmpty with
          | false => simp only [hde, Bool.false_eq_true, if_false] at h; exact Except.noConfusion h
          | true => simp only [hde, eq_self_iff_true, if_true] at h; exact Except.noConfusion h
      | obj fields =>
      cases hsc : groupedScan fields [] none with
      | error e => simp only [hsc] at h; exact Except.noConfusion h
      | ok pr =>
      simp only [hsc] at h
      obtain ⟨groups, last⟩ := pr
      cases last with
      | none => exact Except.noConfusion h
      | some t =>
      obtain ⟨f, fv, gr⟩ := t
      cases hnd : normDocs gr with
      | error e => simp only [hnd] at h; exact Except.noConfusion h
      | ok docs =>
      simp only [hnd] at h
      injection h with h2
      subst h2
      refine ⟨rfl, rfl, rfl, rfl, fun hgf => ?_⟩
      exact absurd hgf (by simp)

/-! ## Grouped scan lemmas -/

theorem groupedScan_preserve :
    ∀ (fields acc : List (JKey × Json)) (last0 : Option (String × Json × Json))
      (out : List (JKey × Json)) (lastOut : Option (String × Json × Json)),
      groupedScan fields acc last0 = .ok (out, lastOut) →
      ∀ k, k ∉ metaKeys fields → lookupK out k = lookupK acc k
  | [], acc, last0, out, lastOut => by
      intro h k _
      simp only [groupedScan, Except.ok.injEq, Prod.mk.injEq] at h
      rw [← h.1]
  | (kk, fv) :: rest, acc, last0, out, lastOut => by
      intro h k hk
      cases kk with
      | kNull => simp only [groupedScan] at h; exact Except.noConfusion h
      | kBool b => simp only [groupedScan] at h; exact Except.noConfusion h
      | kInt n => simp only [groupedScan] at h; exact Except.noConfusion h
      | kStr f =>
      simp only [groupedScan] at h
      cases hng : getKey fv "ngroups" with
      | error e => simp only [hng] at h; exact Except.noConfusion h
      | ok ng =>
      simp only [hng] at h
      cases hm : getKey fv "matches" with
      | error e => simp only [hm] at h; exact Except.noConfusion h
      | ok m =>
      simp only [hm] at h
      cases hgr : getKey fv "groups" with
      | error e => simp only [hgr] at h; exact Except.noConfusion h
      | ok gr =>
      simp only [hgr] at h
      have hks : k ≠ JKey.kStr (f ++ "_ngroups") ∧ k ≠ JKey.kStr (f ++ "_matches") ∧
          k ∉ metaKeys rest := by
        simpa [metaKeys, not_or] using hk
      rw [groupedScan_preserve rest _ _ out lastOut h k hks.2.2,
        lookupK_dictSet, lookupK_dictSet,
        if_neg (fun hh => hks.2.1 hh.symm), if_neg (fun hh => hks.1 hh.symm)]

theorem groupedScan_mem :
    ∀ (fields acc : List (JKey × Json)) (last0 : Option (String × Json × Json))
      (out : List (JKey × Json)) (lastOut : Option (String × Json × Json)),
      groupedScan fields acc last0 = .ok (out, lastOut) →
      (metaKeys fields).Nodup →
      ∀ f fv, (JKey.kStr f, fv) ∈ fields →
        ∃ ng m, getKey fv "ngroups" = .ok ng ∧ getKey fv "matches" = .ok m ∧
          lookupK out (.kStr (f ++ "_ngroups")) = some ng ∧
          lookupK out (.kStr (f ++ "_matches")) = some m
  | [], acc, last0, out, lastOut => by
      intro _ _ f fv hmem
      simp at hmem
  | (kk, fv0) :: rest, acc, last0, out, lastOut => by
      intro h hnd f fv hmem
      cases kk with
      | kNull => simp only [groupedScan] at h; exact Except.noConfusion h
      | kBool b => simp only [groupedScan] at h; exact Except.noConfusion h
      | kInt n => simp only [groupedScan] at h; exact Except.noConfusion h
      | kStr f0 =>
      simp only [groupedScan] at h
      cases hng : getKey fv0 "ngroups" with
      | error e => simp only [hng] at h; exact Except.noConfusion h
      | ok ng =>
      simp only [hng] at h
      cases hm : getKey fv0 "matches" with
      | error e => simp only [hm] at h; exact Except.noConfusion h
      | ok m =>
      simp only [hm] at h
      cases hgr : getKey fv0 "groups" with
      | error e => simp only [hgr] at h; exact Except.noConfusion h
      | ok gr =>
      simp only [hgr] at h
      simp only [metaKeys] at hnd
      have hnd1 := List.nodup_cons.mp hnd
      have hnd2 := List.nodup_cons.mp hnd1.2
      rcases List.mem_cons.mp hmem with heq | hmem2
      · have hf : f = f0 := by
          have := congrArg Prod.fst heq
          simp only at this
          exact JKey.kStr.inj this
        have hv : fv = fv0 := congrArg Prod.snd heq
        subst hf
        subst hv
        have hne : JKey.kStr (f ++ "_ngroups") ≠ JKey.kStr (f ++ "_matches") :=
          fun hh => hnd1.1 (hh ▸ List.mem_cons_self _ _)
        have hni : JKey.kStr (f ++ "_ngroups") ∉ metaKeys rest :=
          fun hh => hnd1.1 (List.mem_cons_of_mem _ hh)
        have hmi : JKey.kStr (f ++ "_matches") ∉ metaKeys rest := hnd2.1
        refine ⟨ng, m, hng, hm, ?_, ?_⟩
        · rw [groupedScan_preserve rest _ _ out lastOut h _ hni,
            lookupK_dictSet, if_neg (fun hh => hne hh.symm),
            lookupK_dictSet, if_pos rfl]
        · rw [groupedScan_preserve rest _ _ out lastOut h _ hmi,
            lookupK_dictSet, if_pos rfl]
      · exact groupedScan_mem rest _ _ out lastOut h hnd2.2 f fv hmem2

theorem groupedScan_last :
    ∀ (fields acc : List (JKey × Json)) (last0 : Option (String × Json × Json))
      (out : List (JKey × Json)) (lastOut : Option (String × Json × Json)),
      groupedScan fields acc last0 = .ok (out, lastOut) →
      (fields = [] ∧ lastOut = last0) ∨
      (∃ f fv gr, fields.getLast? = some (.kStr f, fv) ∧
        getKey fv "groups" = .ok gr ∧ lastOut = some (f, fv, gr))
  | [], acc, last0, out, lastOut => by
      intro h
      simp only [groupedScan, Except.ok.injEq, Prod.mk.injEq] at h
      exact Or.inl ⟨rfl, h.2.symm⟩
  | (kk, fv0) :: rest, acc, last0, out, lastOut => by
      intro h
      cases kk with
      | kNull => simp only [groupedScan] at h; exact Except.noConfusion h
      | kBool b => simp only [groupedScan] at h; exact Except.noConfusion h
      | kInt n => simp only [groupedScan] at h; exact Except.noConfusion h
      | kStr f0 =>
      simp only [groupedScan] at h
      cases hng : getKey fv0 "ngroups" with
      | error e => simp only [hng] at h; exact Except.noConfusion h
      | ok ng =>
      simp only [hng] at h
      cases hm : getKey fv0 "matches" with
      | error e => simp only [hm] at h; exact Except.noConfusion h
      | ok m =>
      simp only [hm] at h
      cases hgr : getKey fv0 "groups" with
      | error e => simp only [hgr] at h; exact Except.noConfusion h
      | ok gr =>
      simp only [hgr] at h
      rcases groupedScan_last rest _ _ out lastOut h with ⟨hnil, hlast⟩ | ⟨f, fv, gr2, hgl, hgk, hlo⟩
      · subst hnil
        exact Or.inr ⟨f0, fv0, gr, rfl, hgr, hlast⟩
      · right
        refine ⟨f, fv, gr2, ?_, hgk, hlo⟩
        cases rest with
        | nil => simp at hgl
        | cons r rs => rw [List.getLast?_cons_cons]; exact hgl

theorem init_ok_grouped (data : Json) (s : SolrResponse)
    (h : SolrResponse.init data = .ok s) (hr : data.hasKey "response" = false)
    (fields : List (JKey × Json)) (hg : getKey data "grouped" = .ok (.obj fields)) :
    ∃ groups f fv gr,
      groupedScan fields [] none = .ok (groups, some (f, fv, gr)) ∧
      s.groups = groups ∧ normDocs gr = .ok s.docs ∧ s.grouped = true := by
  unfold SolrResponse.init at h
  cases hh1 : getKey data "responseHeader" with
  | error e => simp only [hh1] at h; exact Except.noConfusion h
  | ok hdr =>
  simp only [hh1] at h
  cases hh2 : getKey hdr "QTime" with
  | error e => simp only [hh2] at h; exact Except.noConfusion h
  | ok qt =>
  simp only [hh2, hr, Bool.false_eq_true, if_false,
    hasKey_of_getKey hg, eq_self_iff_true, if_true, hg] at h
  cases hsc : groupedScan fields [] none with
  | error e => simp only [hsc] at h; exact Except.noConfusion h
  | ok pr =>
  simp only [hsc] at h
  obtain ⟨groups, last⟩ := pr
  cases last with
  | none => exact Except.noConfusion h
  | some t =>
  obtain ⟨f, fv, gr⟩ := t
  cases hnd : normDocs gr with
  | error e => simp only [hnd] at h; exact Except.noConfusion h
  | ok docs =>
  simp only [hnd] at h
  injection h with h2
  subst h2
  exact ⟨groups, f, fv, gr, rfl, rfl, hnd, rfl⟩

/-! ## Claim theorems -/

/-- C1: evaluation of the code at the failing input of the claim.  On the
pivot entries
`[{value: A, count: 2, pivot: [{value: X, count: 1}, {value: Y, count: 1}]},
{value: B, count: 1}]`
the decoded mapping drops the bare leaf entry B entirely, yielding
`{f1,f2: {A: {X: 1, Y: 1}}}` instead of the
`{A: {X: 1, Y: 1}, B: 1}` the claim requires: the dict branch of
`_rec_subfield` has no case for an entry without a `pivot` key and returns
the empty dict for it. -/
theorem c1_get_facet_pivot_drops_leaf :
    (SolrResponse.init c1Data).map (fun s => (s.get_facet_pivot).1) =
      .ok (.ok (.obj [(.kStr "f1,f2", .obj [(.kStr "A",
        .obj [(.kStr "X", .int 1), (.kStr "Y", .int 1)])])])) := by
  decide

/-- C2: for every constructed wrapper, when the input carries a `response`
object with a `numFound` entry `m`, `get_num_found` returns `m`; and when
the `response` key is absent (grouped or empty shape), the count was never
assigned and `get_num_found` fails with the AttributeError that realizes
the MissingField failure, rather than returning any default. -/
theorem c2_get_num_found_spec (data : Json) (s : SolrResponse)
    (h : SolrResponse.init data = .ok s) :
    (∀ resp m, getKey data "response" = .ok resp → getKey resp "numFound" = .ok m →
      s.get_num_found = .ok m) ∧
    (data.hasKey "response" = false →
      s.get_num_found = .error (.attributeError "num_found")) := by
  constructor
  · intro resp m hresp hnum
    obtain ⟨resp2, docs0, hresp2, _, _, hnf, _, _, _, _, _, _⟩ :=
      init_ok_response data s h (hasKey_of_getKey hresp)
    rw [hresp] at hresp2
    injection hresp2 with he
    subst he
    have hnum2 := objLookup_of_getKey hnum
    simp [SolrResponse.get_num_found, hnf, hnum2]
  · intro hr
    obtain ⟨hnf, _⟩ := init_ok_no_response data s h hr
    simp [SolrResponse.get_num_found, hnf]

/-- C2 witness: on a concrete ungrouped response with `numFound = 1`,
`get_num_found` returns 1; on a concrete empty response it raises. -/
theorem c2_get_num_found_witness :
    SolrResponse.init c6Data = .ok c6State ∧
    c6State.get_num_found = .ok (.int 1) ∧
    SolrResponse.init c5Data = .ok (emptyShapeState c5Data) ∧
    (emptyShapeState c5Data).get_num_found = .error (.attributeError "num_found") :=
  ⟨by decide,
   (c2_get_num_found_spec c6Data c6State (by decide)).1 c6Resp (.int 1) (by decide) (by decide),
   by decide,
   (c2_get_num_found_spec c5Data (emptyShapeState c5Data) (by decide)).2 (by decide)⟩

/-- C3 counterexample: the constructor mutates the stored raw response in
place.  On an input whose document carries the digit-only string field
`price = "100"`, decoding the text of `get_json` yields the mutated
document (`price` is the integer 100), which is not structurally equal to
the original input, refuting the round-trip claim. -/
theorem c3_counterexample :
    (SolrResponse.init c3Data).map SolrResponse.get_json = .ok c3DataStored ∧
    c3DataStored ≠ c3Data :=
  ⟨by decide, by decide⟩

/-- C3 amended: decoding the text of `get_json` yields the stored data,
which equals the original input exactly when the digit normalization left
the working documents unchanged; this holds for the response shape
whenever the extracted `docs` value already equals the normalized working
collection, and for the empty shape always.  (In general the stored raw
response IS mutated by the in-place digit normalization.) -/
theorem c3_get_json_roundtrip (data : Json) (s : SolrResponse)
    (h : SolrResponse.init data = .ok s)
    (hdocs : ∀ resp, getKey data "response" = .ok resp →
      objLookup resp "docs" = some s.docs)
    (hshape : data.hasKey "response" = true ∨ data.hasKey "grouped" = false) :
    s.get_json = data := by
  cases hres : data.hasKey "response" with
  | true =>
      obtain ⟨resp, docs0, h1, _, _, _, h5, _, _, _, _, _⟩ :=
        init_ok_response data s h hres
      have hd := hdocs resp h1
      obtain ⟨dkvs, hdataeq, hdl⟩ := lookupK_of_getKey h1
      cases resp with
      | obj rkvs =>
          have hrd : lookupK rkvs (.kStr "docs") = some s.docs := by
            simpa [objLookup] using hd
          unfold SolrResponse.get_json
          rw [h5, hdataeq]
          simp only [setKeyS]
          rw [dictSet_self rkvs _ _ hrd, dictSet_self dkvs _ _ hdl]
      | null => simp [objLookup] at hd
      | bool b => simp [objLookup] at hd
      | int n => simp [objLookup] at hd
      | str s5 => simp [objLookup] at hd
      | arr xs => simp [objLookup] at hd
  | false =>
      have hgf : data.hasKey "grouped" = false := by
        rcases hshape with hs | hs
        · rw [hres] at hs
          exact absurd hs (by simp)
        · exact hs
      obtain ⟨_, _, _, _, hempty⟩ := init_ok_no_response data s h hres
      unfold SolrResponse.get_json
      exact (hempty hgf).1

/-- C3 witness: on a concrete response whose document has no digit-only
string fields, the round trip is exact. -/
theorem c3_witness :
    SolrResponse.init c3CleanData = .ok c3CleanState ∧
    c3CleanState.get_json = c3CleanData :=
  ⟨by decide,
   c3_get_json_roundtrip c3CleanData c3CleanState (by decide)
    (fun resp hresp => by
      have h0 : getKey c3CleanData "response" = .ok c3CleanResp := by decide
      rw [h0] at hresp
      injection hresp with h1
      subst h1
      decide)
    (Or.inl (by decide))⟩

/-- C4 counterexample: on a raw response whose `facet_counts` is present
and dict-typed but holds no `facet_ranges`, `get_facets_ranges` does not
fail: control falls off the end of the method and it returns None,
refuting the claim that every absent or non-mapping `facet_ranges`
produces the NoFacetRangeInformation failure. -/
theorem c4_counterexample :
    (SolrResponse.init c4Data).map (fun s => (s.get_facets_ranges).1) =
      .ok (.ok .null) := by
  decide

/-- C4 amended: on the first call, `get_facets_ranges` fails with the
SolrResponseError that realizes NoFacetRangeInformation exactly when
`facet_counts` itself is absent or not dict-typed; when `facet_counts` is
a dict but `facet_ranges` is absent or not dict-typed, the accessor
silently returns a null result instead. -/
theorem c4_get_facets_ranges_amended (s : SolrResponse) (kvs : List (JKey × Json))
    (hc : s.facet_ranges = none) (hd : s.data = .obj kvs) :
    (hasObjKey kvs "facet_counts" = false →
      (s.get_facets_ranges).1 =
        .error (.solrResponseError "No Facet Ranges in the Response")) ∧
    (∀ fc, lookupK kvs (.kStr "facet_counts") = some (.obj fc) →
      hasObjKey fc "facet_ranges" = false →
      (s.get_facets_ranges).1 = .ok .null) := by
  constructor
  · intro hno
    unfold SolrResponse.get_facets_ranges
    rcases hl : lookupK kvs (.kStr "facet_counts") with _ | fc
    · simp [hc, hd, hl]
    · cases fc with
      | obj fckvs =>
          have : hasObjKey kvs "facet_counts" = true := by simp [hasObjKey, hl]
          rw [this] at hno
          exact absurd hno (by simp)
      | null => simp [hc, hd, hl]
      | bool b => simp [hc, hd, hl]
      | int n => simp [hc, hd, hl]
      | str s5 => simp [hc, hd, hl]
      | arr xs => simp [hc, hd, hl]
  · intro fc hfc hno
    unfold SolrResponse.get_facets_ranges
    rcases hfr : lookupK fc (.kStr "facet_ranges") with _ | fr
    · simp [hc, hd, hfc, hfr]
    · cases fr with
      | obj frkvs =>
          have : hasObjKey fc "facet_ranges" = true := by simp [hasObjKey, hfr]
          rw [this] at hno
          exact absurd hno (by simp)
      | null => simp [hc, hd, hfc, hfr]
      | bool b => simp [hc, hd, hfc, hfr]
      | int n => simp [hc, hd, hfc, hfr]
      | str s5 => simp [hc, hd, hfc, hfr]
      | arr xs => simp [hc, hd, hfc, hfr]

/-- C4 witness: with no `facet_counts` at all the accessor raises; with a
dict-typed `facet_counts` lacking `facet_ranges` it returns null. -/
theorem c4_get_facets_ranges_witness :
    ((emptyShapeState c5Data).get_facets_ranges).1 =
      .error (.solrResponseError "No Facet Ranges in the Response") ∧
    ((emptyShapeState c4Data).get_facets_ranges).1 = .ok .null :=
  ⟨(c4_get_facets_ranges_amended (emptyShapeState c5Data) [hdrEntry] rfl rfl).1 (by decide),
   (c4_get_facets_ranges_amended (emptyShapeState c4Data)
      [hdrEntry, (.kStr "facet_counts", .obj [])] rfl rfl).2 [] (by decide) (by decide)⟩

/-- C5 amended: when a memoized accessor returns a decoded mapping, a
second call on the resulting state returns the identical value and leaves
the state unchanged.  For `get_facets` every non-raising first call
qualifies; for `get_facets_ranges` and `get_facet_pivot` the guarantee
additionally excludes the null result of the silent fall-through path
(there the first call returns None but the second call returns the empty
cached mapping, which is why the original claim fails). -/
theorem c5_memoized_amended (s s2 : SolrResponse) (v : Json) :
    (s.get_facets = (.ok v, s2) → s2.get_facets = (.ok v, s2)) ∧
    (s.get_facets_ranges = (.ok v, s2) → v ≠ .null →
      s2.get_facets_ranges = (.ok v, s2)) ∧
    (s.get_facet_pivot = (.ok v, s2) → v ≠ .null →
      s2.get_facet_pivot = (.ok v, s2)) := by
  refine ⟨?_, ?_, ?_⟩
  · intro h
    cases hcache : s.facets with
    | some f =>
        simp only [SolrResponse.get_facets, hcache, Prod.mk.injEq, Except.ok.injEq] at h
        obtain ⟨h1, h2⟩ := h
        subst h1
        subst h2
        simp [SolrResponse.get_facets, hcache]
    | none =>
        simp only [SolrResponse.get_facets, hcache] at h
        cases hdata : s.data with
        | obj kvs =>
            simp only [hdata] at h
            rcases hfc : lookupK kvs (.kStr "facet_counts") with _ | fc
            · simp only [hfc] at h
              simp at h
            · cases fc with
              | obj fckvs =>
                  simp only [hfc] at h
                  rcases hff : lookupK fckvs (.kStr "facet_fields") with _ | ff
                  · simp only [hff, Prod.mk.injEq, Except.ok.injEq] at h
                    obtain ⟨h1, h2⟩ := h
                    subst h1
                    subst h2
                    rfl
                  · cases ff with
                    | obj ffkvs =>
                        simp only [hff] at h
                        cases hfl : facetsLoop ffkvs [] with
                        | mk res acc =>
                        simp only [hfl] at h
                        cases res with
                        | ok u =>
                            simp only [Prod.mk.injEq, Except.ok.injEq] at h
                            obtain ⟨h1, h2⟩ := h
                            subst h1
                            subst h2
                            rfl
                        | error e => simp at h
                    | null =>
                        simp only [hff, Prod.mk.injEq, Except.ok.injEq] at h
                        obtain ⟨h1, h2⟩ := h
                        subst h1
                        subst h2
                        rfl
                    | bool b =>
                        simp only [hff, Prod.mk.injEq, Except.ok.injEq] at h
                        obtain ⟨h1, h2⟩ := h
                        subst h1
                        subst h2
                        rfl
                    | int n =>
                        simp only [hff, Prod.mk.injEq, Except.ok.injEq] at h
                        obtain ⟨h1, h2⟩ := h
                        subst h1
                        subst h2
                        rfl
                    | str s5 =>
                        simp only [hff, Prod.mk.injEq, Except.ok.injEq] at h
                        obtain ⟨h1, h2⟩ := h
                        subst h1
                        subst h2
                        rfl
                    | arr xs =>
                        simp only [hff, Prod.mk.injEq, Except.ok.injEq] at h
                        obtain ⟨h1, h2⟩ := h
                        subst h1
                        subst h2
                        rfl
              | null => simp only [hfc] at h; simp at h
              | bool b => simp only [hfc] at h; simp at h
              | int n => simp only [hfc] at h; simp at h
              | str s5 => simp only [hfc] at h; simp at h
              | arr xs => simp only [hfc] at h; simp at h
        | null => simp only [hdata] at h; simp at h
        | bool b => simp only [hdata] at h; simp at h
        | int n => simp only [hdata] at h; simp at h
        | str s5 => simp only [hdata] at h; simp at h
        | arr xs => simp only [hdata] at h; simp at h
  · intro h hv
    cases hcache : s.facet_ranges with
    | some f =>
        simp only [SolrResponse.get_facets_ranges, hcache, Prod.mk.injEq,
          Except.ok.injEq] at h
        obtain ⟨h1, h2⟩ := h
        subst h1
        subst h2
        simp [SolrResponse.get_facets_ranges, hcache]
    | none =>
        simp only [SolrResponse.get_facets_ranges, hcache] at h
        cases hdata : s.data with
        | obj kvs =>
            simp only [hdata] at h
            rcases hfc : lookupK kvs (.kStr "facet_counts") with _ | fc
            · simp only [hfc] at h
              simp at h
            · cases fc with
              | obj fckvs =>
                  simp only [hfc] at h
                  rcases hfr : lookupK fckvs (.kStr "facet_ranges") with _ | fr
                  · simp only [hfr, Prod.mk.injEq, Except.ok.injEq] at h
                    exact absurd h.1.symm hv
                  · cases fr with
                    | obj frkvs =>
                        simp only [hfr] at h
                        cases hrl : rangesLoop frkvs [] with
                        | mk res acc =>
                        simp only [hrl] at h
                        cases res with
                        | ok u =>
                            simp only [Prod.mk.injEq, Except.ok.injEq] at h
                            obtain ⟨h1, h2⟩ := h
                            subst h1
                            subst h2
                            rfl
                        | error e => simp at h
                    | null =>
                        simp only [hfr, Prod.mk.injEq, Except.ok.injEq] at h
                        exact absurd h.1.symm hv
                    | bool b =>
                        simp only [hfr, Prod.mk.injEq, Except.ok.injEq] at h
                        exact absurd h.1.symm hv
                    | int n =>
                        simp only [hfr, Prod.mk.injEq, Except.ok.injEq] at h
                        exact absurd h.1.symm hv
                    | str s5 =>
                        simp only [hfr, Prod.mk.injEq, Except.ok.injEq] at h
                        exact absurd h.1.symm hv
                    | arr xs =>
                        simp only [hfr, Prod.mk.injEq, Except.ok.injEq] at h
                        exact absurd h.1.symm hv
              | null => simp only [hfc] at h; simp at h
              | bool b => simp only [hfc] at h; simp at h
              | int n => simp only [hfc] at h; simp at h
              | str s5 => simp only [hfc] at h; simp at h
              | arr xs => simp only [hfc] at h; simp at h
        | null => simp only [hdata] at h; simp at h
        | bool b => simp only [hdata] at h; simp at h
        | int n => simp only [hdata] at h; simp at h
        | str s5 => simp only [hdata] at h; simp at h
        | arr xs => simp only [hdata] at h; simp at h
  · intro h hv
    cases hcache : s.facet_pivot with
    | some f =>
        simp only [SolrResponse.get_facet_pivot, hcache, Prod.mk.injEq,
          Except.ok.injEq] at h
        obtain ⟨h1, h2⟩ := h
        subst h1
        subst h2
        simp [SolrResponse.get_facet_pivot, hcache]
    | none =>
        simp only [SolrResponse.get_facet_pivot, hcache] at h
        cases hdata : s.data with
        | obj kvs =>
            simp only [hdata] at h
            rcases hfc : lookupK kvs (.kStr "facet_counts") with _ | fc
            · simp only [hfc, Prod.mk.injEq, Except.ok.injEq] at h
              exact absurd h.1.symm hv
            · simp only [hfc] at h
              cases hgk : getKey fc "facet_pivot" with
              | error e => simp only [hgk] at h; simp at h
              | ok pivots =>
                  simp only [hgk] at h
                  cases pivots with
                  | obj pkvs =>
                      cases hpl : pivotLoop pkvs [] with
                      | mk res acc =>
                      simp only [hpl] at h
                      cases res with
                      | ok u =>
                          simp only [Prod.mk.injEq, Except.ok.injEq] at h
                          obtain ⟨h1, h2⟩ := h
                          subst h1
                          subst h2
                          rfl
                      | error e => simp at h
                  | null => simp at h
                  | bool b => simp at h
                  | int n => simp at h
                  | str s5 => simp at h
                  | arr xs => simp at h
        | null => simp only [hdata] at h; simp at h
        | bool b => simp only [hdata] at h; simp at h
        | int n => simp only [hdata] at h; simp at h
        | str s5 => simp only [hdata] at h; simp at h
        | arr xs => simp only [hdata] at h; simp at h

/-- C5 counterexample: on a response with no `facet_counts`, the first
`get_facet_pivot` call returns None while the second call returns the
empty cached mapping, so the two calls do not return equal results. -/
theorem c5_counterexample :
    (SolrResponse.init c5Data).map
      (fun s => ((s.get_facet_pivot).1, ((s.get_facet_pivot).2.get_facet_pivot).1)) =
      .ok (.ok .null, .ok (.obj [])) ∧ Json.null ≠ Json.obj [] :=
  ⟨by decide, by decide⟩

/-- C5 witness: on a wrapper over a response with well-formed facet
sections, a second call of each accessor returns the value of the first
call. -/
theorem c5_memoized_witness :
    c5S1.get_facets = (.ok c5FacetsVal, c5S1) ∧
    c5S2.get_facets_ranges = (.ok c5RangesVal, c5S2) ∧
    c5S3.get_facet_pivot = (.ok c5PivotVal, c5S3) :=
  ⟨(c5_memoized_amended (emptyShapeState c5RichData) c5S1 c5FacetsVal).1 (by decide),
   (c5_memoized_amended (emptyShapeState c5RichData) c5S2 c5RangesVal).2.1
     (by decide) (by decide),
   (c5_memoized_amended (emptyShapeState c5RichData) c5S3 c5PivotVal).2.2
     (by decide) (by decide)⟩

/-- C6: the ingestion normalization acts fieldwise on every document of
the working collection: a field holding a digit-only string becomes the
equivalent integer (losing leading zeros), non-digit strings and
already-numeric fields are unchanged; on the example document
`{price: "100", name: "abc", code: "007"}` the stored collection carries
`price = 100`, `name = "abc"` and `code = 7`. -/
theorem c6_digit_normalization :
    (∀ (kvs : List (JKey × Json)) (k : JKey) (v : Json),
      lookupK kvs k = some v → lookupK (normEntries kvs) k = some (normField v)) ∧
    (∀ s5 : String, pyIsDigit s5 = true →
      normField (.str s5) = .int (Int.ofNat (strToNat s5))) ∧
    (∀ s5 : String, pyIsDigit s5 = false → normField (.str s5) = .str s5) ∧
    (∀ n : Int, normField (.int n) = .int n) ∧
    (SolrResponse.init c6Data).map (fun t => t.docs) = .ok c6Docs := by
  refine ⟨?_, ?_, ?_, fun n => rfl, by decide⟩
  · intro kvs k v hl
    rw [lookupK_normEntries, hl]
    rfl
  · intro s5 hd
    simp [normField, hd]
  · intro s5 hd
    simp [normField, hd]

/-- C6 witness: the general fieldwise statement applied at a concrete
document entry, with the digit-string and leading-zero cases. -/
theorem c6_digit_normalization_witness :
    lookupK [(JKey.kStr "price", Json.str "100")] (JKey.kStr "price") =
      some (.str "100") ∧
    lookupK (normEntries [(JKey.kStr "price", Json.str "100")]) (JKey.kStr "price") =
      some (.int 100) ∧
    pyIsDigit "007" = true ∧ normField (.str "007") = .int 7 :=
  ⟨by decide,
   c6_digit_normalization.1 [(JKey.kStr "price", Json.str "100")]
     (JKey.kStr "price") (.str "100") (by decide),
   by decide,
   c6_digit_normalization.2.1 "007" (by decide)⟩

/-- C7: `get_facets` decodes each flat facet list by pairing every
even-index element with the immediately following odd-index element
(`zip(l[::2], l[1::2])` equals the specification pairing), building the
mapping with standard insertion semantics where the last pair of a
repeated key wins while the key keeps its first-insertion position (the
final lookup equals the lookup in the reversed pair list, and the final
key order is the first-occurrence order); on the example list
`[red, 3, blue, 5, red, 1]` the full accessor yields
`{red: 1, blue: 5}` in the order red, blue. -/
theorem c7_facets_alternating_decode :
    (∀ l : List Json, zipPairs (evens l) (odds l) = specPairs l) ∧
    (∀ (ps : List (JKey × Json)) (k : JKey),
      lookupK (insFold ps []) k = lookupK ps.reverse k) ∧
    (∀ ps : List (JKey × Json), (insFold ps []).map Prod.fst = keysInOrder ps []) ∧
    (SolrResponse.init c7Data).map (fun s => (s.get_facets).1) =
      .ok (.ok (.obj [(.kStr "color",
        .obj [(.kStr "red", .int 1), (.kStr "blue", .int 5)])])) := by
  refine ⟨zip_evens_odds, insFold_lookup_nil, ?_, by decide⟩
  intro ps
  have h := insFold_keys ps []
  simpa using h

/-- C8 counterexample: on a facet mapping holding only the field `color`,
requesting the absent field `missing` makes `get_facet_values_as_list`
raise the SolrResponseError that realizes FieldNotFound, while
`get_facet_keys_as_list` silently returns None, so the keys variant does
not fail as the values variant does. -/
theorem c8_counterexample :
    (SolrResponse.init c8Data).map (fun s =>
      ((s.get_facet_keys_as_list "missing").1,
       (s.get_facet_values_as_list "missing").1)) =
      .ok (.ok .null, .error (.solrResponseError "No field in facet output")) := by
  decide

/-- C8 amended: when `get_facets` succeeds with a facet mapping, a present
field makes `get_facet_keys_as_list` return that field's keys in order,
but an absent field makes it return null without failing, whereas
`get_facet_values_as_list` raises the SolrResponseError that realizes
FieldNotFound. -/
theorem c8_keys_as_list_amended (s s2 : SolrResponse) (fkvs : List (JKey × Json))
    (field : String) (h : s.get_facets = (.ok (.obj fkvs), s2)) :
    (∀ kvs, lookupK fkvs (.kStr field) = some (.obj kvs) →
      s.get_facet_keys_as_list field =
        (.ok (.arr (kvs.map (fun p => keyToJson p.1))), s2)) ∧
    (lookupK fkvs (.kStr field) = none →
      s.get_facet_keys_as_list field = (.ok .null, s2) ∧
      s.get_facet_values_as_list field =
        (.error (.solrResponseError "No field in facet output"), s2)) := by
  constructor
  · intro kvs hl
    unfold SolrResponse.get_facet_keys_as_list
    simp [h, hl]
  · intro hl
    constructor
    · unfold SolrResponse.get_facet_keys_as_list
      simp [h, hl]
    · unfold SolrResponse.get_facet_values_as_list
      simp [h, hl]

/-- C8 witness: on a concrete wrapper, the present field returns its keys
in order and the absent field returns null. -/
theorem c8_keys_as_list_witness :
    (emptyShapeState c8Data).get_facet_keys_as_list "color" =
      (.ok (.arr [.str "red"]), c8S1) ∧
    (emptyShapeState c8Data).get_facet_keys_as_list "missing" = (.ok .null, c8S1) :=
  ⟨(c8_keys_as_list_amended (emptyShapeState c8Data) c8S1 c8Fkvs "color"
      (by decide)).1 [(JKey.kStr "red", .int 3)] (by decide),
   ((c8_keys_as_list_amended (emptyShapeState c8Data) c8S1 c8Fkvs "missing"
      (by decide)).2 (by decide)).1⟩

/-- C9: for a grouped response (no `response` key) whose generated
metadata keys do not collide, construction records `field_ngroups` and
`field_matches` for every grouped field in the flat metadata mapping, and
the working document collection is the normalized `groups` list of the
last field in iteration order (earlier group lists are overwritten). -/
theorem c9_grouped_construction (data : Json) (s : SolrResponse)
    (fields : List (JKey × Json))
    (h : SolrResponse.init data = .ok s)
    (hr : data.hasKey "response" = false)
    (hg : getKey data "grouped" = .ok (.obj fields))
    (hnd : (metaKeys fields).Nodup) :
    s.grouped = true ∧
    (∀ f fv, (JKey.kStr f, fv) ∈ fields →
      ∃ ng m, getKey fv "ngroups" = .ok ng ∧ getKey fv "matches" = .ok m ∧
        lookupK s.groups (.kStr (f ++ "_ngroups")) = some ng ∧
        lookupK s.groups (.kStr (f ++ "_matches")) = some m) ∧
    (∃ f fv gr, fields.getLast? = some (.kStr f, fv) ∧
      getKey fv "groups" = .ok gr ∧ normDocs gr = .ok s.docs) := by
  obtain ⟨groups, f0, fv0, gr0, hsc, hgroups, hnorm, hgrouped⟩ :=
    init_ok_grouped data s h hr fields hg
  refine ⟨hgrouped, ?_, ?_⟩
  · intro f fv hmem
    obtain ⟨ng, m, h1, h2, h3, h4⟩ :=
      groupedScan_mem fields [] none groups (some (f0, fv0, gr0)) hsc hnd f fv hmem
    rw [hgroups]
    exact ⟨ng, m, h1, h2, h3, h4⟩
  · rcases groupedScan_last fields [] none groups (some (f0, fv0, gr0)) hsc with
      ⟨hnil, hl⟩ | ⟨f, fv, gr, hgl, hgk, hlo⟩
    · exact absurd hl (by simp)
    · injection hlo with ht
      injection ht with ht1 ht2
      injection ht2 with ht2a ht2b
      subst ht1
      subst ht2a
      subst ht2b
      exact ⟨f0, fv0, gr0, hgl, hgk, hnorm⟩

/-- C9 witness: on a concrete grouped response with fields `a` and `b`,
all four metadata entries are recorded and the docs are the `b` group
list. -/
theorem c9_grouped_witness :
    SolrResponse.init c9Data = .ok c9State ∧ c9State.grouped = true ∧
    lookupK c9State.groups (.kStr "a_ngroups") = some (.int 2) ∧
    lookupK c9State.groups (.kStr "a_matches") = some (.int 5) ∧
    lookupK c9State.groups (.kStr "b_ngroups") = some (.int 3) ∧
    lookupK c9State.groups (.kStr "b_matches") = some (.int 9) := by
  have H := c9_grouped_construction c9Data c9State c9Fields
    (by decide) (by decide) (by decide) (by decide)
  refine ⟨by decide, H.1, ?_, ?_, ?_, ?_⟩
  · obtain ⟨ng, m, h1, h2, h3, h4⟩ := H.2.1 "a" c9FvA (by decide)
    have h0 : getKey c9FvA "ngroups" = .ok (.int 2) := by decide
    rw [h0] at h1
    injection h1 with he
    subst he
    exact h3
  · obtain ⟨ng, m, h1, h2, h3, h4⟩ := H.2.1 "a" c9FvA (by decide)
    have h0 : getKey c9FvA "matches" = .ok (.int 5) := by decide
    rw [h0] at h2
    injection h2 with he
    subst he
    exact h4
  · obtain ⟨ng, m, h1, h2, h3, h4⟩ := H.2.1 "b" c9FvB (by decide)
    have h0 : getKey c9FvB "ngroups" = .ok (.int 3) := by decide
    rw [h0] at h1
    injection h1 with he
    subst he
    exact h3
  · obtain ⟨ng, m, h1, h2, h3, h4⟩ := H.2.1 "b" c9FvB (by decide)
    have h0 : getKey c9FvB "matches" = .ok (.int 9) := by decide
    rw [h0] at h2
    injection h2 with he
    subst he
    exact h4

/-- C10: when the input carries a `grouped` key whose value is the empty
mapping (and no `response` key), the grouped loop runs zero times, the
working document collection is never assigned, and the constructor raises
the AttributeError for the missing `docs` attribute instead of producing
a wrapper. -/
theorem c10_empty_grouped_raises (data hdr0 qt0 : Json)
    (h1 : getKey data "responseHeader" = .ok hdr0)
    (h2 : getKey hdr0 "QTime" = .ok qt0)
    (h3 : data.hasKey "response" = false)
    (h4 : getKey data "grouped" = .ok (.obj [])) :
    SolrResponse.init data = .error (.attributeError "docs") := by
  unfold SolrResponse.init
  simp only [h1, h2, h3, Bool.false_eq_true, if_false,
    hasKey_of_getKey h4, eq_self_iff_true, if_true, h4]
  rfl

/-- C10 witness: the constructor fails on the concrete input
`{responseHeader: {QTime: 0}, grouped: {}}`. -/
theorem c10_empty_grouped_witness :
    getKey c10Data "responseHeader" = .ok (.obj [(.kStr "QTime", .int 0)]) ∧
    SolrResponse.init c10Data = .error (.attributeError "docs") :=
  ⟨by decide,
   c10_empty_grouped_raises c10Data (.obj [(.kStr "QTime", .int 0)]) (.int 0)
     (by decide) (by decide) (by decide) (by decide)⟩
